import Mathlib

/-!
Verification development for the conversational booking assistant
(FastAPI backend + Streamlit frontend).  The Python source under
`backend/` is shallowly embedded: each tool becomes a Lean function over
an explicit database / session-store state, Python exceptions become the
`Except.error` branch, and the Supabase query builders become list
filters over a pure database value.
-/

deriving instance DecidableEq for Except

namespace Rbnb

/-! ## Dates

`datetime.date.fromisoformat` / `datetime.strptime(s, "%Y-%m-%d")` on the
canonical `YYYY-MM-DD` format: ten characters, digits with dashes at
positions 4 and 7, a real proleptic-Gregorian calendar date with
`1 <= year <= 9999`.  Comparison of dates is lexicographic on
(year, month, day), exactly as in Python. -/

structure Date where
  year : Nat
  month : Nat
  day : Nat
  deriving DecidableEq, Repr

def isLeapYear (y : Nat) : Bool :=
  (y % 4 = 0 && y % 100 ≠ 0) || y % 400 = 0

def daysInMonth (y m : Nat) : Nat :=
  if m = 2 then (if isLeapYear y then 29 else 28)
  else if m = 4 || m = 6 || m = 9 || m = 11 then 30
  else 31

def Date.valid (d : Date) : Bool :=
  1 ≤ d.year && d.year ≤ 9999 &&
  1 ≤ d.month && d.month ≤ 12 &&
  1 ≤ d.day && d.day ≤ daysInMonth d.year d.month

/-- Strict order on dates, lexicographic on (year, month, day). -/
def Date.ltb (a b : Date) : Bool :=
  a.year < b.year ||
  (a.year = b.year && (a.month < b.month ||
    (a.month = b.month && a.day < b.day)))

/-- Non-strict order on dates. -/
def Date.leb (a b : Date) : Bool :=
  a.ltb b || a = b

def digitVal (c : Char) : Nat := c.toNat - '0'.toNat

/-- Parser for `YYYY-MM-DD` date strings; `none` models the `ValueError`
raised by `datetime.date.fromisoformat` / `datetime.strptime` on bad
input. -/
def fromisoformat (s : String) : Option Date :=
  match s.toList with
  | [y1, y2, y3, y4, c1, m1, m2, c2, d1, d2] =>
    if y1.isDigit && y2.isDigit && y3.isDigit && y4.isDigit &&
       c1 = '-' && m1.isDigit && m2.isDigit && c2 = '-' &&
       d1.isDigit && d2.isDigit then
      let d : Date :=
        { year := 1000 * digitVal y1 + 100 * digitVal y2 + 10 * digitVal y3 + digitVal y4
          month := 10 * digitVal m1 + digitVal m2
          day := 10 * digitVal d1 + digitVal d2 }
      if d.valid then some d else none
    else none
  | _ => none

/-! ## Data model (backend/schemas/chatschemas.py and the Supabase rows) -/

/-- Schema `ExtractedInfo` (chatschemas.py): the extracted booking parameters.
All fields optional, `none` meaning "not yet known". -/
structure ExtractedInfo where
  destination : Option String := none
  check_in : Option String := none
  check_out : Option String := none
  guests : Option Int := none
  deriving DecidableEq, Repr

/-- Schema `Message` (chatschemas.py): one entry of the conversation history. -/
structure Message where
  role : String
  content : String
  deriving DecidableEq, Repr

/-- Schema `ChatResponse` (chatschemas.py lines 28-31): the outgoing response
model.  Its only declared fields are `response` and `updated_info`;
FastAPI serializes exactly these, and Pydantic ignores any extra keyword
argument passed to the constructor. -/
structure ChatResponse where
  response : String
  updated_info : Option ExtractedInfo := none
  deriving DecidableEq, Repr

/-- The JSON keys of a serialized `ChatResponse`, as produced by
FastAPI from the declared model fields. -/
def ChatResponse.keys (_ : ChatResponse) : List String :=
  ["response", "updated_info"]

/-- A row of the `listings` table. -/
structure Listing where
  id : String
  title : String
  city : String
  country : String
  price_per_night : Option Int := none
  max_guests : Option Int := none
  bedrooms : Option Int := none
  description : Option String := none
  image_url : Option String := none
  amenities : List String := []
  deriving DecidableEq, Repr

/-- A row of the `users` table. -/
structure UserRow where
  id : String
  email : String
  full_name : Option String := none
  phone_number : Option String := none
  deriving DecidableEq, Repr

/-- A row of the `bookings` table (dates stored as calendar dates, as the
Postgres `date` columns compare them). -/
structure Booking where
  id : String
  user_id : String
  listing_id : String
  check_in : Date
  check_out : Date
  num_guests : Int
  total_price : Int
  status : String
  deriving DecidableEq, Repr

/-- The relational store: the three Supabase collections. -/
structure DB where
  listings : List Listing
  users : List UserRow
  bookings : List Booking
  deriving DecidableEq, Repr

/-! ## check_availability (backend/tools/aviailability_tools.py)

The result dictionary: every key the Python code may put into `result`
is an optional field, `none` meaning "key absent". -/

structure AvailabilityResult where
  listing_id : Option String := none
  check_in : Option String := none
  check_out : Option String := none
  is_available : Option Bool := none
  conflicting_bookings_found : Option Nat := none
  error : Option String := none
  total_price : Option Int := none
  listing_title : Option String := none
  deriving DecidableEq, Repr

/-- The `TypeError` raised by `current_info["selected_listing_id"] = ...`:
`current_info` is either `None` or a Pydantic `ExtractedInfo` model, and
neither supports item assignment. -/
def itemAssignTypeError : String :=
  "TypeError: object does not support item assignment"

/-- Python truthiness of an optional string (`not s`). -/
def strFalsy : Option String → Bool
  | none => true
  | some s => s = ""

/-- Tool `check_availability` (aviailability_tools.py lines 16-144).

* resolves the listing id from the title (first matching row);
* rejects missing dates, bad date formats, and `check_in >= check_out`
  with an error dictionary;
* counts bookings for that listing with `check_out <` requested
  check-out and `check_in >` requested check-in (the Supabase query
  `.lt("check_out", check_out).gt("check_in", check_in)`), i.e. bookings
  strictly inside the open requested interval;
* if that count is zero (`is_available` true), it loads the session
  state and performs `current_info["selected_listing_id"] = listing_id`
  on an `Optional[ExtractedInfo]`, which raises `TypeError` whether the
  value is `None` or a Pydantic model — in both the `price_per_night`
  branch (line 120) and the second `if is_available` block (line 136) —
  so every available-path invocation raises before returning and before
  any state save;
* if the count is positive the result dictionary is returned with
  `is_available = false`.

The exception is `Except.error`; the session store is never written
because both save calls sit after the raising item assignment. -/
def check_availability (db : DB) (_session_id : String) (name : String)
    (check_in : Option String := none) (check_out : Option String := none) :
    Except String AvailabilityResult :=
  match (db.listings.filter (fun l => l.title = name)).head? with
  | none => .ok { error := some "Listing not found." }
  | some listing =>
    let listing_id := listing.id
    if listing_id = "" then
      .ok { error := some "Missing listing ID for availability check." }
    else if strFalsy check_in || strFalsy check_out then
      .ok { error := some "Missing check-in or check-out date for availability check." }
    else
      let ci := check_in.getD ""
      let co := check_out.getD ""
      match fromisoformat ci, fromisoformat co with
      | some date_in, some date_out =>
        if date_out.leb date_in then
          .ok { error := some "Check-out date must be after check-in date."
                check_in := some ci, check_out := some co }
        else
          let overlapping_booking_count :=
            (db.bookings.filter (fun b =>
              b.listing_id = listing_id &&
              b.check_out.ltb date_out && date_in.ltb b.check_in)).length
          if overlapping_booking_count = 0 then
            -- is_available = True: the state-update block raises TypeError
            -- (item assignment on Optional[ExtractedInfo]) before the
            -- result dictionary can be returned.
            .error itemAssignTypeError
          else
            .ok { listing_id := some listing_id
                  check_in := some ci, check_out := some co
                  is_available := some false
                  conflicting_bookings_found := some overlapping_booking_count }
      | _, _ =>
        .ok { error := some "Invalid date format provided. Please use YYYY-MM-DD."
              check_in := some ci, check_out := some co }

/-! ## Session store (backend/config/redis.py)

The Redis backing store is modelled as a key/value map from keys to a
stored blob together with its remaining TTL; the outcome of each raw
`get`/`setex` call is an explicit oracle value, so backing-store errors
and corrupt blobs are states the embedded functions must handle, exactly
as the Python `try`/`except` blocks do. -/

def STATE_EXPIRY_SECONDS : Nat := 7200

/-- One entry of the serialized `history` list: either a dict with both
`role` and `content` (valid) or anything else (skipped by the loader). -/
inductive RawMsg where
  | valid (m : Message)
  | invalid
  deriving DecidableEq, Repr

/-- A value stored under a session key: either a decodable snapshot of
`{info, history}` or a blob `json.loads` rejects. -/
inductive Blob where
  | good (info : Option ExtractedInfo) (history : List RawMsg)
  | corrupt
  deriving DecidableEq, Repr

/-- Outcome of the raw `client.get` call. -/
inductive GetOutcome where
  | missing
  | found (b : Blob)
  | storeError
  deriving DecidableEq, Repr

/-- Outcome of the raw `client.setex` call. -/
inductive SetOutcome where
  | succeeded
  | storeError
  deriving DecidableEq, Repr

/-- The decoded conversation record `{info, history}`. -/
structure ConvState where
  info : Option ExtractedInfo := none
  history : List Message := []
  deriving DecidableEq, Repr

/-- The loader keeps only history entries that are dicts with `role` and
`content` keys (redis.py lines 77-82). -/
def decodeHistory (raw : List RawMsg) : List Message :=
  raw.filterMap (fun r => match r with | .valid m => some m | .invalid => none)

/-- Loader `load_conversation_state` (redis.py lines 56-91): returns the default
empty record on an empty session id, a missing key, an undecodable blob,
or any backing-store error; otherwise the decoded record.  The return
type is a plain record — no exception can escape, every failure is
caught and mapped to the default. -/
def load_conversation_state (session_id : String) (got : GetOutcome) : ConvState :=
  if session_id = "" then { info := none, history := [] }
  else
    match got with
    | .missing => { info := none, history := [] }
    | .storeError => { info := none, history := [] }
    | .found .corrupt => { info := none, history := [] }
    | .found (.good info raw) => { info := info, history := decodeHistory raw }

/-- The session store: key to (blob, remaining TTL in seconds). -/
def SessionStore := String → Option (Blob × Nat)

/-- Saver `save_conversation_state` (redis.py lines 34-54): no-op on an empty
session id; on success writes the serialized `{info, history}` blob
under `session:` + id with `setex` and the fixed 7200-second expiry; on
a backing-store error logs and leaves the store unchanged — it never
raises into the caller. -/
def save_conversation_state (store : SessionStore) (session_id : String)
    (info : Option ExtractedInfo) (history : List Message) (set : SetOutcome) :
    SessionStore :=
  if session_id = "" then store
  else
    match set with
    | .succeeded =>
      fun k =>
        if k = "session:" ++ session_id then
          some (.good info (history.map .valid), STATE_EXPIRY_SECONDS)
        else store k
    | .storeError => store

/-! ## update_booking_parameters (backend/tools/booking_tools.py lines 10-54) -/

/-- The argument tuple of one `update_booking_parameters` call; `none`
is a parameter the model did not supply. -/
structure UpdateArgs where
  destination : Option String := none
  check_in : Option String := none
  check_out : Option String := none
  guests : Option Int := none
  deriving DecidableEq, Repr

/-- Python `if arg is not None: updated_values[field] = arg` — the supplied
value overwrites, an omitted value keeps the old one. -/
def overwrite {α : Type} (old new : Option α) : Option α :=
  match new with
  | some v => some v
  | none => old

/-- The merge core of `update_booking_parameters` (lines 29-45): start
from the existing info (a fresh `ExtractedInfo()` when none), then
overwrite exactly the fields whose argument `is not None`. -/
def mergeBookingParams (current : Option ExtractedInfo) (a : UpdateArgs) :
    ExtractedInfo :=
  let base := current.getD {}
  { destination := overwrite base.destination a.destination
    check_in := overwrite base.check_in a.check_in
    check_out := overwrite base.check_out a.check_out
    guests := overwrite base.guests a.guests }

/-- Tool `update_booking_parameters` on a decoded conversation record (the
success path of lines 22-54: load the state, merge the non-null
arguments, save `{merged info, unchanged history}`, return the merged
info as the tool result). -/
def update_booking_parameters (st : ConvState) (a : UpdateArgs) :
    ConvState × ExtractedInfo :=
  let updated := mergeBookingParams st.info a
  ({ info := some updated, history := st.history }, updated)

/-- A sequence of `update_booking_parameters` calls against the same
session. -/
def runUpdates (st : ConvState) (calls : List UpdateArgs) : ConvState :=
  calls.foldl (fun s a => (update_booking_parameters s a).1) st

/-- Field-wise "last non-null value across the sequence", the
specification wording for the merge invariant: the last supplied value
of the field, the inherited value when the sequence never supplies it. -/
def lastNonNull {α : Type} (init : Option α) (supplied : List (Option α)) : Option α :=
  supplied.foldl overwrite init

/-! ## get_or_create_user (backend/tools/user_tools.py lines 10-123) -/

/-- The result dictionary of `get_or_create_user`. -/
structure UserResult where
  status : String
  user_id : Option String := none
  email : Option String := none
  full_name : Option String := none
  error_message : Option String := none
  deriving DecidableEq, Repr

/-- Basic email validation (user_tools.py line 27): non-empty and
containing both an at sign and a dot. -/
def emailValid (email : String) : Bool :=
  email ≠ "" && email.toList.contains '@' && email.toList.contains '.'

/-- Tool `get_or_create_user` (user_tools.py lines 10-123).

* rejects invalid emails with `status = "error"`;
* looks the user up by exact email match; if present takes its id and
  full name and sets `status = "found"`; if absent inserts a new row
  (id chosen by the database, passed here as `newId`) and sets
  `status = "created"`;
* then, because a user id was obtained, calls
  `save_conversation_state(session_id, current_info, history,
  user_id=str(user_id))` — but `save_conversation_state` (redis.py line
  34) accepts no `user_id` keyword, so the call raises `TypeError`
  inside the surrounding `try`, and the handler overwrites `status`
  with `"error"` and sets the generic internal error message.  The
  database insert has already committed, and `user_id` stays in the
  returned dictionary.

The returned pair is (result dictionary, database after the call). -/
def get_or_create_user (db : DB) (_session_id : String) (email : String)
    (full_name : String) (phone_number : Option String := none)
    (newId : String := "u-new") : UserResult × DB :=
  if !emailValid email then
    ({ status := "error", error_message := some "Invalid email address provided."
       user_id := none, email := some email, full_name := some full_name }, db)
  else
    match (db.users.filter (fun u => u.email = email)).head? with
    | some u =>
      -- found: user_id and full_name come from the row; then the Redis
      -- update call raises TypeError (unexpected keyword argument
      -- user_id) and the except-handler turns status into "error".
      ({ status := "error", user_id := some u.id, email := some email
         full_name := u.full_name
         error_message := some "An internal error occurred while processing user details." },
       db)
    | none =>
      -- created: the insert commits, then the same TypeError fires.
      let newUser : UserRow :=
        { id := newId, email := email, full_name := some full_name
          phone_number := phone_number }
      ({ status := "error", user_id := some newId, email := some email
         full_name := some full_name
         error_message := some "An internal error occurred while processing user details." },
       { db with users := db.users ++ [newUser] })

/-- The overlap count the specification describes: existing bookings for
the listing whose half-open range [check_in, check_out) intersects the
requested half-open range.  Stated from the spec wording ("counts
overlapping confirmed bookings for that listing in the date range") for
comparison with the count the code computes. -/
def specOverlapCount (db : DB) (listing_id : String) (date_in date_out : Date) : Nat :=
  (db.bookings.filter (fun b =>
    b.listing_id = listing_id &&
    b.check_in.ltb date_out && date_in.ltb b.check_out)).length

/-! ## search_listings (backend/tools/search_tools.py lines 10-157) -/

def charsStart : List Char → List Char → Bool
  | [], _ => true
  | _ :: _, [] => false
  | a :: as, b :: bs => a = b && charsStart as bs

def charsWithin (needle : List Char) : List Char → Bool
  | [] => needle.isEmpty
  | c :: rest => charsStart needle (c :: rest) || charsWithin needle rest

/-- Python `str.lower()`. -/
def pyLower (s : String) : String :=
  ⟨s.toList.map Char.toLower⟩

/-- Python `str.strip()`: leading and trailing whitespace removed. -/
def pyStrip (s : String) : String :=
  ⟨((s.toList.dropWhile Char.isWhitespace).reverse.dropWhile Char.isWhitespace).reverse⟩

/-- Case-insensitive substring test: Postgres `ilike` with a pattern of
the shape percent-text-percent. -/
def containsCI (hay needle : String) : Bool :=
  charsWithin (pyLower needle).toList (pyLower hay).toList

/-- Postgres `ilike` applied to a nullable column: a NULL value satisfies no
comparison in SQL, so the row is excluded. -/
def optContainsCI (hay : Option String) (needle : String) : Bool :=
  match hay with
  | none => false
  | some s => containsCI s needle

/-- A NULL numeric column satisfies no `gte`/`lte` filter. -/
def optGe (v : Option Int) (bound : Int) : Bool :=
  match v with | none => false | some x => bound ≤ x

def optLe (v : Option Int) (bound : Int) : Bool :=
  match v with | none => false | some x => x ≤ bound

/-- The arguments of one `search_listings` call; `none` models an
omitted parameter.  Numeric parameters are integers here — no claim
depends on fractional prices. -/
structure SearchArgs where
  query : Option String := none
  destination : Option String := none
  guests : Option Int := none
  country : Option String := none
  min_price : Option Int := none
  max_price : Option Int := none
  min_bedrooms : Option Int := none
  amenities : Option String := none
  limit : Nat := 5
  deriving Repr

/-- Python truthiness of `if guests and guests > 0:` — the filter is
applied exactly when the value is supplied and positive. -/
def posGuard (v : Option Int) : Option Int :=
  match v with
  | some x => if 0 < x then some x else none
  | none => none

/-- Truthy optional string (supplied and non-empty). -/
def strTruthy (v : Option String) : Option String :=
  match v with
  | some s => if s = "" then none else some s
  | none => none

/-- The conjunction of filters of the primary query (lines 54-104): a
free-text disjunctive group, a destination disjunctive group, then the
country / guests / price / bedroom / amenity filters, all ANDed. -/
def primaryFilter (a : SearchArgs) (l : Listing) : Bool :=
  (match strTruthy a.query with
   | some q =>
     let c := pyStrip (pyLower q)
     containsCI l.title c || optContainsCI l.description c ||
       containsCI l.city c || containsCI l.country c
   | none => true) &&
  (match strTruthy a.destination with
   | some d =>
     let c := pyStrip (pyLower d)
     containsCI l.city c || containsCI l.country c
   | none => true) &&
  (match strTruthy a.country with
   | some c => containsCI l.country (pyStrip c)
   | none => true) &&
  (match posGuard a.guests with
   | some g => optGe l.max_guests g
   | none => true) &&
  (match posGuard a.min_price with
   | some p => optGe l.price_per_night p
   | none => true) &&
  (match posGuard a.max_price with
   | some p => optLe l.price_per_night p
   | none => true) &&
  (match posGuard a.min_bedrooms with
   | some b => optGe l.bedrooms b
   | none => true) &&
  (match strTruthy a.amenities with
   | some s =>
     (s.splitOn ",").all (fun am =>
       let c := pyLower (pyStrip am)
       c = "" || l.amenities.contains c)
   | none => true)

/-- Ascending order on `price_per_night` with SQL NULLs last, for the
`order("price_per_night")` clause. -/
def priceLe (a b : Listing) : Bool :=
  match a.price_per_night, b.price_per_night with
  | none, none => true
  | none, some _ => false
  | some _, none => true
  | some p, some q => p ≤ q

def insertByPrice (x : Listing) : List Listing → List Listing
  | [] => [x]
  | y :: ys => if priceLe x y then x :: y :: ys else y :: insertByPrice x ys

def sortByPrice (l : List Listing) : List Listing :=
  l.foldr insertByPrice []

/-- The rows the primary query returns: filtered, price-ordered,
truncated to `limit`. -/
def primaryRows (db : DB) (a : SearchArgs) : List Listing :=
  (sortByPrice (db.listings.filter (primaryFilter a))).take a.limit

/-- The filter of the single relaxed fallback query (lines 119-127):
city match on the destination when one was given, otherwise country
match on the country when one was given, otherwise no filter. -/
inductive FallbackFilter where
  | byCity (pat : String)
  | byCountry (pat : String)
  | unfiltered
  deriving DecidableEq, Repr

def fallbackChoice (a : SearchArgs) : FallbackFilter :=
  match strTruthy a.destination with
  | some d => .byCity (pyStrip d)
  | none =>
    match strTruthy a.country with
    | some c => .byCountry (pyStrip c)
    | none => .unfiltered

/-- The rows the fallback query returns (no ordering clause, only a
limit). -/
def fallbackRows (db : DB) (f : FallbackFilter) (limit : Nat) : List Listing :=
  match f with
  | .byCity pat => (db.listings.filter (fun l => containsCI l.city pat)).take limit
  | .byCountry pat => (db.listings.filter (fun l => containsCI l.country pat)).take limit
  | .unfiltered => db.listings.take limit

/-- The display fix-up of one result row (lines 139-146): placeholder
image where absent, descriptions over 200 characters truncated to 197
plus an ellipsis. -/
def fixupItem (l : Listing) : Listing :=
  let l := if l.image_url = none || l.image_url = some "" then
    { l with image_url := some "https://placehold.co/600x400?text=No+Image" } else l
  match l.description with
  | some d =>
    if 200 < d.length then
      { l with description := some (⟨d.toList.take 197⟩ ++ "...") }
    else l
  | none => l

/-- The post-processing loop over the results.  On the first iteration,
after fixing the item up, the loop calls `save_conversation_state(...,
listing=item)` (line 148); `save_conversation_state` accepts no
`listing` keyword, so a `TypeError` is raised inside the surrounding
`try` and the handler returns the results as they stand: the first item
fixed up, the rest untouched. -/
def postProcessResults : List Listing → List Listing
  | [] => []
  | item :: rest => fixupItem item :: rest

/-- The outcome of one `search_listings` call: the returned rows and the
fallback query issued, `none` when the primary query produced rows.  A
second fallback round does not exist in the code: the fallback block
runs at most once, straight-line. -/
structure SearchOutcome where
  results : List Listing
  fallback : Option FallbackFilter
  deriving Repr

/-- Tool `search_listings` (search_tools.py lines 10-157): run the primary
filtered query; when it yields no rows, run exactly one relaxed fallback
query; post-process whatever rows were obtained; an empty outcome is
returned as an empty list, never as an error. -/
def search_listings (db : DB) (a : SearchArgs) : SearchOutcome :=
  let primary := primaryRows db a
  if primary.isEmpty then
    let f := fallbackChoice a
    { results := postProcessResults (fallbackRows db f a.limit), fallback := some f }
  else
    { results := postProcessResults primary, fallback := none }

/-! ## create_booking (backend/tools/booking_tools.py lines 89-233) -/

/-- The result dictionary of `create_booking`. -/
structure BookingResult where
  status : String
  message : Option String := none
  booking_id : Option String := none
  user_id : Option String := none
  listing_id : Option String := none
  listing_title : Option String := none
  listing_city : Option String := none
  check_in : Option String := none
  check_out : Option String := none
  num_guests : Option Int := none
  total_price : Option Int := none
  deriving DecidableEq, Repr

/-- Tool `create_booking` (booking_tools.py lines 89-233).

* rejects a falsy `user_id` or `listing_id` with `status = "error"`;
* validates both dates with `strptime(..., "%Y-%m-%d")` and requires
  `check_in < check_out`;
* re-checks availability with the inclusive query
  `.gte("check_out", check_in).lte("check_in", check_out)`: any
  existing booking for the listing with `check_out >=` the requested
  check-in and `check_in <=` the requested check-out blocks the insert
  with `status = "unavailable"`;
* otherwise inserts the booking row (`status = "confirmed"`, the id
  generated by `uuid.uuid4()` is passed here as `newBookingId`) and
  returns the success dictionary, with title and city looked up from
  the listings table.

The returned pair is (result dictionary, database after the call). -/
def create_booking (db : DB) (_session_id : String) (user_id listing_id : String)
    (check_in check_out : String) (num_guests : Int) (total_price : Int)
    (newBookingId : String := "b-new") : BookingResult × DB :=
  if user_id = "" then
    ({ status := "error"
       message := some "User ID is required. Please collect user information first."
       booking_id := none }, db)
  else if listing_id = "" then
    ({ status := "error", message := some "Listing ID is required."
       booking_id := none }, db)
  else
    match fromisoformat check_in, fromisoformat check_out with
    | some date_in, some date_out =>
      if date_out.leb date_in then
        ({ status := "error"
           message := some "Check-out date must be after check-in date."
           booking_id := none }, db)
      else
        let conflicts := db.bookings.filter (fun b =>
          b.listing_id = listing_id &&
          date_in.leb b.check_out && b.check_in.leb date_out)
        if !conflicts.isEmpty then
          ({ status := "unavailable"
             message := some "This listing is no longer available for the selected dates."
             booking_id := none }, db)
        else
          let row : Booking :=
            { id := newBookingId, user_id := user_id, listing_id := listing_id
              check_in := date_in, check_out := date_out
              num_guests := num_guests, total_price := total_price
              status := "confirmed" }
          let details := (db.listings.filter (fun l => l.id = listing_id)).head?
          ({ status := "success", booking_id := some newBookingId
             user_id := some user_id, listing_id := some listing_id
             listing_title := some ((details.map (·.title)).getD "Unknown listing")
             listing_city := some ((details.map (·.city)).getD "")
             check_in := some check_in, check_out := some check_out
             num_guests := some num_guests, total_price := some total_price
             message := some "Booking confirmed successfully!" },
           { db with bookings := db.bookings ++ [row] })
    | _, _ =>
      ({ status := "error", message := some "Invalid date format. Use YYYY-MM-DD."
         booking_id := none }, db)

/-! ## Orchestration loop (backend/main.py, chat_endpoint lines 68-412) -/

/-- Modelled from the spec: `ListingResult`, the structured listing
summary main.py validates search rows into and hands to the
presentation layer.  main.py imports it from `schemas/chatschemas.py`,
but the schema file as given does not define it; the spec (section 3,
"Listing") lists its fields. -/
structure ListingResult where
  id : Option String := none
  title : Option String := none
  city : Option String := none
  country : Option String := none
  price_per_night : Option Int := none
  max_guests : Option Int := none
  bedrooms : Option Int := none
  description : Option String := none
  image_url : Option String := none
  deriving DecidableEq, Repr

/-- The booking-confirmation block main.py builds into its local
`final_response["booking_info"]` dictionary (lines 300-318). -/
structure BookingInfo where
  booking_id : Option String := none
  listing_title : Option String := none
  check_in : Option String := none
  check_out : Option String := none
  total_price : Option Int := none
  deriving DecidableEq, Repr

/-- Fallback reply when the Gemini call or response parsing fails
(main.py line 392; the apostrophe of the source text is elided). -/
def connectionTroubleReply : String :=
  "I apologize, but I am having trouble connecting with my systems right now. Please try again in a moment."

/-- Reply when Gemini requests a tool that is not registered (line 378). -/
def confusedReply : String :=
  "Sorry, I got a bit confused with an internal task. Could you please rephrase your request?"

/-- Tool-specific apology when tool execution or the second model call
raises (line 368). -/
def toolApology (name : String) : String :=
  "Sorry, I encountered an issue while trying to " ++ name.replace "_" " " ++ ". Could you try again?"

/-- How one request resolves after the first Gemini call: a failure of
the call itself, a direct text reply, an unknown tool request, a tool
whose execution (or second model pass) raised, or a successfully
normalized tool round with the final text of the second pass. -/
inductive TurnPath where
  | llmFailure
  | directText (t : String)
  | unknownTool (name : String)
  | toolFailed (name : String)
  | updateParamsOk (updated : ExtractedInfo) (reply : String)
  | searchOk (results : List ListingResult) (reply : String)
  | availabilityOk (payload : AvailabilityResult) (reply : String)
  | userOk (payload : UserResult) (reply : String)
  | bookingOk (payload : BookingResult) (reply : String)
  deriving Repr

/-- Pydantic `ExtractedInfo(**availability_payload)` (main.py line 252):
keeps the declared fields present in the dictionary and ignores the
extra keys (`listing_id`, `is_available`, ...); `destination` and
`guests` are absent from the payload and become None. -/
def extractedInfoOfAvailability (r : AvailabilityResult) : ExtractedInfo :=
  { destination := none, check_in := r.check_in, check_out := r.check_out
    guests := none }

/-- The variables the interaction loop leaves behind for response
assembly and the state save. -/
structure TurnOutcome where
  reply : String
  updated_info : Option ExtractedInfo
  search_results : Option (List ListingResult)
  booking_info : Option BookingInfo
  deriving Repr

/-- The per-path normalization of main.py lines 104-394: each branch
sets the natural-language reply, possibly replaces
`updated_info_for_response`, and fills the structured payloads. -/
def runTurn (current_info : Option ExtractedInfo) : TurnPath → TurnOutcome
  | .llmFailure =>
    { reply := connectionTroubleReply, updated_info := current_info
      search_results := none, booking_info := none }
  | .directText t =>
    { reply := t, updated_info := current_info
      search_results := none, booking_info := none }
  | .unknownTool _ =>
    { reply := confusedReply, updated_info := current_info
      search_results := none, booking_info := none }
  | .toolFailed name =>
    { reply := toolApology name, updated_info := current_info
      search_results := none, booking_info := none }
  | .updateParamsOk updated reply =>
    { reply := reply, updated_info := some updated
      search_results := none, booking_info := none }
  | .searchOk results reply =>
    { reply := reply, updated_info := current_info
      search_results := some results, booking_info := none }
  | .availabilityOk payload reply =>
    { reply := reply, updated_info := some (extractedInfoOfAvailability payload)
      search_results := none, booking_info := none }
  | .userOk _ reply =>
    { reply := reply, updated_info := current_info
      search_results := none, booking_info := none }
  | .bookingOk payload reply =>
    { reply := reply, updated_info := current_info
      search_results := none
      booking_info :=
        if payload.status = "success" then
          some { booking_id := payload.booking_id
                 listing_title := payload.listing_title
                 check_in := payload.check_in, check_out := payload.check_out
                 total_price := payload.total_price }
        else none }

/-- Endpoint `chat_endpoint` (main.py lines 68-412) after the model handle is
obtained: run the interaction loop, append exactly the user message and
the final reply to the loaded history, save that record, and return
`ChatResponse(response=..., updated_info=..., search_results=...)`.
`search_results` is not a declared field of `ChatResponse`, so Pydantic
drops it, and the `booking_info` entry of the local `final_response`
dictionary is never attached to the returned value at all.  The first
component is the record passed to `save_conversation_state`; the second
is the response value the presentation layer receives. -/
def chat_endpoint (st : ConvState) (message : String) (path : TurnPath) :
    ConvState × ChatResponse :=
  let tr := runTurn st.info path
  let final_history := st.history ++
    [{ role := "user", content := message },
     { role := "assistant", content := tr.reply }]
  ({ info := tr.updated_info, history := final_history },
   { response := tr.reply, updated_info := tr.updated_info })

/-! ## Concrete fixtures -/

def loftListing : Listing :=
  { id := "L1", title := "Loft", city := "Paris", country := "France"
    price_per_night := some 100 }

def dbNoBookings : DB :=
  { listings := [loftListing], users := [], bookings := [] }

def bookingJul10to15 : Booking :=
  { id := "B1", user_id := "U1", listing_id := "L1"
    check_in := ⟨2025, 7, 10⟩, check_out := ⟨2025, 7, 15⟩
    num_guests := 2, total_price := 500, status := "confirmed" }

def bookingJul11to14 : Booking :=
  { id := "B2", user_id := "U2", listing_id := "L1"
    check_in := ⟨2025, 7, 11⟩, check_out := ⟨2025, 7, 14⟩
    num_guests := 2, total_price := 300, status := "confirmed" }

def bookingJul5to10 : Booking :=
  { id := "B0", user_id := "U2", listing_id := "L1"
    check_in := ⟨2025, 7, 5⟩, check_out := ⟨2025, 7, 10⟩
    num_guests := 2, total_price := 500, status := "confirmed" }

def dbOneBooking : DB :=
  { listings := [loftListing], users := [], bookings := [bookingJul10to15] }

def dbTwoBookings : DB :=
  { listings := [loftListing], users := []
    bookings := [bookingJul10to15, bookingJul11to14] }

def dbBackToBack : DB :=
  { listings := [loftListing], users := [], bookings := [bookingJul5to10] }

def dbEmpty : DB := { listings := [], users := [], bookings := [] }

/-! ## Claims -/

/-- C4: the claim says that with zero overlapping bookings and a known
price, `check_availability` returns `total_price = nights ×
price_per_night` with `listing_title` and persists the selected-listing
fields.  The code instead raises `TypeError` on that very path: with the
count at zero it executes `current_info["selected_listing_id"] =
listing_id` on an `Optional[ExtractedInfo]` (aviailability_tools.py line
120, and again line 136), which supports no item assignment, so the
function raises before building the success fields and before any state
save.  Evaluated here on a listing with price 100 and an empty bookings
table for 2025-07-10 → 2025-07-15. -/
theorem c4_available_path_raises_typeerror :
    check_availability dbNoBookings "s" "Loft" (some "2025-07-10") (some "2025-07-15") =
      .error itemAssignTypeError := by
  decide

/-- C1: the claim says `conflicting_bookings_found` counts the bookings
overlapping [check_in, check_out) and that after a `create_booking` for
overlapping dates a repeated `check_availability` reports
`is_available = false` with a positive count.  The code instead counts
bookings strictly inside the open requested interval (the query
`.lt("check_out", ...).gt("check_in", ...)`), and its available path
raises.  At the failing input: a listing with bookings 2025-07-10 →
2025-07-15 and 2025-07-11 → 2025-07-14 and request 2025-07-10 →
2025-07-15, two bookings overlap but the code reports
`conflicting_bookings_found = 1`; and after `create_booking` books
2025-07-10 → 2025-07-15 on a free listing, `check_availability` for
those dates counts zero conflicts and raises `TypeError` instead of
reporting `is_available = false`. -/
theorem c1_overlap_count_and_roundtrip_diverge :
    specOverlapCount dbTwoBookings "L1" ⟨2025, 7, 10⟩ ⟨2025, 7, 15⟩ = 2 ∧
    check_availability dbTwoBookings "s" "Loft" (some "2025-07-10") (some "2025-07-15") =
      .ok { listing_id := some "L1", check_in := some "2025-07-10"
            check_out := some "2025-07-15", is_available := some false
            conflicting_bookings_found := some 1 } ∧
    (create_booking dbNoBookings "s" "U1" "L1" "2025-07-10" "2025-07-15" 2 500 "B1").2 =
      dbOneBooking ∧
    check_availability dbOneBooking "s" "Loft" (some "2025-07-10") (some "2025-07-15") =
      .error itemAssignTypeError := by
  refine ⟨by decide, by decide, by decide, by decide⟩

/-- The database after the first `get_or_create_user` call on an empty
users table. -/
def dbAfterFirstUserCall : DB :=
  (get_or_create_user dbNoBookings "s" "jane.doe@mail.com" "Jane Doe" none "U7").2

/-- The new row that first call inserts. -/
def janeRow : UserRow :=
  { id := "U7", email := "jane.doe@mail.com", full_name := some "Jane Doe"
    phone_number := none }

/-- C2: the claim says the first call returns `status = "created"` and
persists the user id into the session record, and the second call
returns `status = "found"` with the same id.  In the code, whenever a
user id is obtained the tool calls `save_conversation_state(...,
user_id=str(user_id))` (user_tools.py line 98), but
`save_conversation_state` (redis.py line 34) accepts no `user_id`
keyword; the resulting `TypeError` is caught by the surrounding handler,
which overwrites `status` with `"error"` — on both calls — and nothing
is persisted into the session record.  The user row is nonetheless
inserted by the first call, and both calls do return the same user id
`U7`. -/
theorem c2_get_or_create_user_status_always_error :
    (get_or_create_user dbNoBookings "s" "jane.doe@mail.com" "Jane Doe" none "U7").1 =
      { status := "error", user_id := some "U7", email := some "jane.doe@mail.com"
        full_name := some "Jane Doe"
        error_message := some "An internal error occurred while processing user details." } ∧
    dbAfterFirstUserCall.users = [janeRow] ∧
    (get_or_create_user dbAfterFirstUserCall "s" "jane.doe@mail.com" "Jane Doe" none "U8").1 =
      { status := "error", user_id := some "U7", email := some "jane.doe@mail.com"
        full_name := some "Jane Doe"
        error_message := some "An internal error occurred while processing user details." } := by
  refine ⟨by decide, by decide, by decide⟩

/-- A successful `create_booking` result, as `main.py` would see it in
the booking branch. -/
def sampleBookingSuccess : BookingResult :=
  { status := "success", booking_id := some "B1", user_id := some "U1"
    listing_id := some "L1", listing_title := some "Loft"
    listing_city := some "Paris", check_in := some "2025-07-10"
    check_out := some "2025-07-15", num_guests := some 2
    total_price := some 500, message := some "Booking confirmed successfully!" }

/-- A listing summary as the search branch would produce. -/
def sampleListingResult : ListingResult :=
  { id := some "L1", title := some "Loft", city := some "Paris"
    country := some "France", price_per_night := some 100 }

/-- C3: the claim says the value returned to the presentation layer
contains the reply text, the extractedInfo snapshot, an optional listing
sequence and an optional booking-confirmation block.  `ChatResponse`
(chatschemas.py lines 28-31) declares only `response` and
`updated_info`: the `search_results=` keyword main.py passes to the
constructor is not a declared field and Pydantic drops it, and the
`booking_info` entry main.py builds into its local `final_response`
dictionary is never attached to the returned value.  (main.py even
imports `ListingResult` from the schema module, which does not define
it.)  Evaluated here: a turn whose tool round produced a success booking
and a turn that produced a listing result both return a value fully
determined by the reply and the info snapshot, whose serialized form
has exactly the keys `response` and `updated_info`. -/
theorem c3_response_lacks_structured_payloads :
    (chat_endpoint { info := none, history := [] } "book it"
        (.bookingOk sampleBookingSuccess "Booked!")).2 =
      { response := "Booked!", updated_info := none } ∧
    (chat_endpoint { info := none, history := [] } "show me paris"
        (.searchOk [sampleListingResult] "Here are some listings.")).2 =
      { response := "Here are some listings.", updated_info := none } ∧
    ChatResponse.keys { response := "Booked!", updated_info := none } =
      ["response", "updated_info"] := by
  refine ⟨by decide, by decide, by decide⟩

/-- C5: for every starting record and every sequence of
`update_booking_parameters` calls with partial fields, the resulting
extractedInfo is the field-wise last-non-null value across the
sequence: each supplied (non-null) argument overwrites its field, each
omitted field keeps its previous value, and no field is ever dropped. -/
theorem c5_merge_is_fieldwise_last_non_null (st : ConvState) (calls : List UpdateArgs) :
    ((runUpdates st calls).info.getD {}).destination =
      lastNonNull ((st.info.getD {}).destination) (calls.map (·.destination)) ∧
    ((runUpdates st calls).info.getD {}).check_in =
      lastNonNull ((st.info.getD {}).check_in) (calls.map (·.check_in)) ∧
    ((runUpdates st calls).info.getD {}).check_out =
      lastNonNull ((st.info.getD {}).check_out) (calls.map (·.check_out)) ∧
    ((runUpdates st calls).info.getD {}).guests =
      lastNonNull ((st.info.getD {}).guests) (calls.map (·.guests)) := by
  induction calls generalizing st with
  | nil => exact ⟨rfl, rfl, rfl, rfl⟩
  | cons a cs ih =>
    have h := ih { info := some (mergeBookingParams st.info a), history := st.history }
    exact ⟨h.1, h.2.1, h.2.2.1, h.2.2.2⟩

/-- C6: on every turn path — direct text reply, tool success, tool
failure, unknown tool, or a failed LLM call — the record saved at the
end of the turn carries exactly the loaded history plus two appended
entries: the user message, then the assistant reply; no existing entry
is reordered or deleted (the old history is literally the prefix), and
the length grows by exactly two. -/
theorem c6_history_grows_by_two (st : ConvState) (message : String) (path : TurnPath) :
    (chat_endpoint st message path).1.history =
      st.history ++ [{ role := "user", content := message },
                     { role := "assistant", content := (runTurn st.info path).reply }] ∧
    (chat_endpoint st message path).1.history.take st.history.length = st.history ∧
    (chat_endpoint st message path).1.history.length = st.history.length + 2 := by
  refine ⟨rfl, ?_, ?_⟩
  · simp [chat_endpoint]
  · simp [chat_endpoint]

/-- C7: `load_conversation_state` is total (its return type is a plain
record, so no exception reaches the caller) and yields the default empty
record `{info := none, history := []}` on a missing key and on any
backing-store error (also on an undecodable blob); and
`save_conversation_state` is best-effort: on success it writes the
serialized record under the session key with the fixed 7200-second
expiry refreshed, and on a backing-store failure it leaves the store
unchanged without raising. -/
theorem c7_session_store_contract :
    (∀ sid, load_conversation_state sid .missing = { info := none, history := [] }) ∧
    (∀ sid, load_conversation_state sid .storeError = { info := none, history := [] }) ∧
    (∀ sid, load_conversation_state sid (.found .corrupt) = { info := none, history := [] }) ∧
    (∀ (store : SessionStore) sid info hist, sid ≠ "" →
        save_conversation_state store sid info hist .succeeded ("session:" ++ sid) =
          some (.good info (hist.map .valid), STATE_EXPIRY_SECONDS)) ∧
    (∀ (store : SessionStore) sid info hist,
        save_conversation_state store sid info hist .storeError = store) := by
  refine ⟨?_, ?_, ?_, ?_, ?_⟩
  · intro sid
    by_cases h : sid = "" <;> simp [load_conversation_state, h]
  · intro sid
    by_cases h : sid = "" <;> simp [load_conversation_state, h]
  · intro sid
    by_cases h : sid = "" <;> simp [load_conversation_state, h]
  · intro store sid info hist h
    simp [save_conversation_state, h]
  · intro store sid info hist
    by_cases h : sid = "" <;> simp [save_conversation_state, h]

/-- Witness for C7 at a concrete store, session id and record. -/
theorem c7_session_store_contract_witness :
    save_conversation_state (fun _ => none) "abc" none [] .succeeded ("session:" ++ "abc") =
      some (.good none [], STATE_EXPIRY_SECONDS) :=
  c7_session_store_contract.2.2.2.1 (fun _ => none) "abc" none [] (by decide)

/-- C8: whenever the primary filtered query of `search_listings` returns
no rows, exactly one relaxed fallback query is issued — filtered by city
on the destination when one was given, else by country when one was
given, else unfiltered — and when the fallback also returns no rows the
call returns the empty sequence (the return type carries no error: the
only exception inside the function, the `TypeError` of the
result-processing loop, is caught).  The `fallback` component of the
outcome records the single fallback query; the straight-line code has no
second fallback round. -/
theorem c8_exactly_one_fallback_round (db : DB) (a : SearchArgs)
    (h : primaryRows db a = []) :
    (search_listings db a).fallback = some (fallbackChoice a) ∧
    (∀ d, strTruthy a.destination = some d → fallbackChoice a = .byCity (pyStrip d)) ∧
    (∀ c, strTruthy a.destination = none → strTruthy a.country = some c →
      fallbackChoice a = .byCountry (pyStrip c)) ∧
    (strTruthy a.destination = none → strTruthy a.country = none →
      fallbackChoice a = .unfiltered) ∧
    (fallbackRows db (fallbackChoice a) a.limit = [] →
      (search_listings db a).results = []) := by
  refine ⟨?_, ?_, ?_, ?_, ?_⟩
  · simp [search_listings, h]
  · intro d hd
    simp [fallbackChoice, hd]
  · intro c h1 hc
    simp [fallbackChoice, h1, hc]
  · intro h1 h2
    simp [fallbackChoice, h1, h2]
  · intro hf
    simp [search_listings, h, hf, postProcessResults]

/-- Arguments of the spec's fallback scenario: a destination no listing
matches and no other filter. -/
def nowhereArgs : SearchArgs := { destination := some "Nowhereville" }

/-- Witness for C8: on an empty listings table, searching for
Nowhereville issues the one city-filtered fallback and returns the empty
sequence. -/
theorem c8_exactly_one_fallback_round_witness :
    (search_listings dbEmpty nowhereArgs).fallback = some (.byCity "Nowhereville") ∧
    (search_listings dbEmpty nowhereArgs).results = [] := by
  have h := c8_exactly_one_fallback_round dbEmpty nowhereArgs (by decide)
  have hd := h.2.1 "Nowhereville" (by decide)
  refine ⟨?_, h.2.2.2.2 (by decide)⟩
  rw [h.1, hd]
  decide

/-- C9: on a resolvable listing, a `check_availability` call whose dates
fail validation — either date not a valid YYYY-MM-DD date, or check-in
not strictly before check-out — returns a dictionary containing an
`error` entry and raises no exception: every validation branch sits
before the available-path item assignment, so the function returns
normally with an error payload. -/
theorem c9_bad_dates_return_error_payload (db : DB) (sid name : String) (l : Listing)
    (ci co : String)
    (hres : (db.listings.filter (fun x => x.title = name)).head? = some l)
    (hbad : fromisoformat ci = none ∨ fromisoformat co = none ∨
      ∃ di dout, fromisoformat ci = some di ∧ fromisoformat co = some dout ∧
        dout.leb di = true) :
    ∃ r, check_availability db sid name (some ci) (some co) = .ok r ∧
      r.error.isSome = true := by
  simp only [check_availability, hres]
  split
  · exact ⟨_, rfl, rfl⟩
  · split
    · exact ⟨_, rfl, rfl⟩
    · split
      · next di dout hci hco =>
        rcases hbad with hbad | hbad | ⟨di2, dout2, h1, h2, hle⟩
        · rw [Option.getD_some] at hci
          exact absurd hci (by simp [hbad])
        · rw [Option.getD_some] at hco
          exact absurd hco (by simp [hbad])
        · rw [Option.getD_some] at hci hco
          rw [hci] at h1
          rw [hco] at h2
          have h1 := Option.some_injective _ h1
          have h2 := Option.some_injective _ h2
          subst h1
          subst h2
          rw [if_pos hle]
          exact ⟨_, rfl, rfl⟩
      · exact ⟨_, rfl, rfl⟩

/-- Witness for C9 at reversed dates on the sample listing. -/
theorem c9_bad_dates_return_error_payload_witness :
    ∃ r, check_availability dbNoBookings "s" "Loft" (some "2025-07-15") (some "2025-07-10") =
      .ok r ∧ r.error.isSome = true :=
  c9_bad_dates_return_error_payload dbNoBookings "s" "Loft" loftListing
    "2025-07-15" "2025-07-10" (by decide)
    (Or.inr (Or.inr ⟨⟨2025, 7, 15⟩, ⟨2025, 7, 10⟩, by decide, by decide, by decide⟩))

/-- C10: the pre-insert availability re-check of `create_booking` uses
inclusive bounds (`.gte("check_out", check_in).lte("check_in",
check_out)`), so any existing booking for the listing with
`check_out >=` the requested check-in and `check_in <=` the requested
check-out — in particular a back-to-back stay whose check-out equals the
requested check-in — makes the call return `status = "unavailable"` and
leaves the bookings table unchanged. -/
theorem c10_inclusive_recheck_blocks_touching_booking (db : DB)
    (sid uid lid ci co nb : String) (ng tp : Int) (di dout : Date) (b : Booking)
    (hu : uid ≠ "") (hl : lid ≠ "")
    (hci : fromisoformat ci = some di) (hco : fromisoformat co = some dout)
    (hord : dout.leb di = false)
    (hb : b ∈ db.bookings) (hbl : b.listing_id = lid)
    (hout : di.leb b.check_out = true) (hin : b.check_in.leb dout = true) :
    create_booking db sid uid lid ci co ng tp nb =
      ({ status := "unavailable"
         message := some "This listing is no longer available for the selected dates."
         booking_id := none }, db) := by
  have hmem : b ∈ db.bookings.filter (fun x =>
      x.listing_id = lid && di.leb x.check_out && x.check_in.leb dout) :=
    List.mem_filter.mpr ⟨hb, by simp [hbl, hout, hin]⟩
  have hne : db.bookings.filter (fun x =>
      x.listing_id = lid && di.leb x.check_out && x.check_in.leb dout) ≠ [] :=
    List.ne_nil_of_mem hmem
  have hie : (db.bookings.filter (fun x =>
      x.listing_id = lid && di.leb x.check_out && x.check_in.leb dout)).isEmpty = false := by
    simpa [List.isEmpty_iff] using hne
  simp only [create_booking, hci, hco]
  rw [if_neg hu, if_neg hl]
  rw [if_neg (by simp [hord])]
  simp [hie]

/-- Witness for C10: a back-to-back existing booking 2025-07-05 →
2025-07-10 blocks a requested 2025-07-10 → 2025-07-15 stay. -/
theorem c10_inclusive_recheck_blocks_touching_booking_witness :
    create_booking dbBackToBack "s" "U1" "L1" "2025-07-10" "2025-07-15" 2 500 "B9" =
      ({ status := "unavailable"
         message := some "This listing is no longer available for the selected dates."
         booking_id := none }, dbBackToBack) :=
  c10_inclusive_recheck_blocks_touching_booking dbBackToBack "s" "U1" "L1"
    "2025-07-10" "2025-07-15" "B9" 2 500 ⟨2025, 7, 10⟩ ⟨2025, 7, 15⟩ bookingJul5to10
    (by decide) (by decide) (by decide) (by decide) (by decide) (by decide)
    (by decide) (by decide) (by decide)

end Rbnb
